import Mathlib

/-!
Verification development for the upsun-mcp-server chainlit apps.

The repository contains two small chainlit applications:

* `src/chainlit/app-openia.py` — the tool-invocation orchestration loop:
  an MCP tool registry kept in the user session (`mcp_tools`), a model
  gateway (`call_model_with_tools`), a tool invoker (`call_tool` with its
  helper `find_mcp_for_tool`) and a driver (`on_message`) that loops while
  the model keeps asking for tools.
* `src/chainlit/app.py` — a plain single-completion app whose `on_message`
  sends the completion text to the UI.

The Python code is dynamically typed; we embed it shallowly.  Attribute
access on a value that does not carry the attribute is modelled as an
`AttributeError`; `raise` statements and propagating exceptions are
modelled with `Except`.  External collaborators (the OpenAI completion
endpoint and the MCP backend sessions) are modelled through the interface
the code assumes of them: a completion either carries a final text or a
list of tool calls, and a backend session is a function from a tool name
and input to a result or an error.
-/

/-- Python exceptions that the embedded code can raise. -/
inductive PyErr where
  | attributeError (attr : String)
  | valueError (msg : String)
  | typeError (msg : String)
  | indexError (msg : String)
  | stopIteration
deriving DecidableEq

/-- Opaque Python values flowing through the tool-call plumbing
(tool inputs and backend results).  The code only ever forwards them and
applies `str(...)`, so a string payload and `None` suffice. -/
inductive PyVal where
  | pstr (s : String)
  | pnone
deriving DecidableEq, BEq

/-- Python `str(...)` on the values of `PyVal` (`str(None) = "None"`). -/
def pyStr : PyVal → String
  | PyVal.pstr s => s
  | PyVal.pnone => "None"

/-- A tool descriptor as built in `on_mcp_connect` (app-openia.py lines
118-122): name, description and input schema (schema kept opaque). -/
structure Tool where
  name : String
  description : String
  input_schema : String
deriving DecidableEq

/-- An Anthropic-style content block, the shape the loop body of
`on_message` (app-openia.py lines 37-47) assumes for `response.content`:
each block carries a `type`, and a `tool_use` block carries `id`, `name`
and `input`. -/
structure Block where
  type : String
  id : String
  name : String
  input : PyVal
deriving DecidableEq

/-- A conversation message as built by the two apps: the system and user
seed messages (app-openia.py lines 29-32, app.py lines 22-32), the
assistant message recording `response.content` and the user-role
tool-result message (app-openia.py lines 40-52). -/
inductive Msg where
  | system (content : String)
  | user (content : String)
  | assistant (content : List Block)
  | toolResultUser (tool_use_id : String) (content : String)
deriving DecidableEq

namespace AppOpenia

/-- The `mcp_tools` session dict: connection name to advertised tool list,
in insertion (registration) order. -/
abbrev Registry := List (String × List Tool)

/-- A live MCP backend session, modelled by its `call_tool` behaviour
(a backend call returns a result or reports an error). -/
structure McpSession where
  call_tool : String → PyVal → Except PyErr PyVal

/-- chainlit's `cl.context.session.mcp_sessions`: connection name to a
`(session, task)` pair; the second slot is ignored by the code
(app-openia.py line 174). -/
abbrev SessionTable := List (String × (Option McpSession × Unit))

/-- Python dict assignment `d[k] = v`: updating an existing key keeps its
position, a new key is appended. -/
def dictSet {α : Type} (d : List (String × α)) (k : String) (v : α) :
    List (String × α) :=
  if d.any (fun entry => entry.1 == k) then
    d.map (fun entry => if entry.1 == k then (k, v) else entry)
  else
    d ++ [(k, v)]

/-- Python `d.get(k)` with no default: the value if the key is present,
`None` otherwise. -/
def dictGet {α : Type} (d : List (String × α)) (k : String) : Option α :=
  (d.find? (fun entry => entry.1 == k)).map (fun entry => entry.2)

/-- `on_mcp_connect` (app-openia.py lines 106-127): stores the advertised
tool list under the connection name, `mcp_tools[connection.name] = tools`. -/
def on_mcp_connect (mcp_tools : Registry) (connection_name : String)
    (tools : List Tool) : Registry :=
  dictSet mcp_tools connection_name tools

/-- `on_mcp_disconnect` (app-openia.py lines 130-135): the handler body
only logs; the registry is left untouched. -/
def on_mcp_disconnect (mcp_tools : Registry) (name : String) : Registry :=
  mcp_tools

/-- An MCP connection-lifecycle event delivered by chainlit. -/
inductive McpEvent where
  | connect (name : String) (tools : List Tool)
  | disconnect (name : String)
deriving DecidableEq

/-- Dispatch one lifecycle event to the corresponding handler. -/
def applyEvent (mcp_tools : Registry) : McpEvent → Registry
  | McpEvent.connect name tools => on_mcp_connect mcp_tools name tools
  | McpEvent.disconnect name => on_mcp_disconnect mcp_tools name

/-- Run a sequence of lifecycle events against the registry. -/
def runEvents (mcp_tools : Registry) (events : List McpEvent) : Registry :=
  events.foldl applyEvent mcp_tools

/-- Whether an event is a connect event. -/
def McpEvent.isConnect : McpEvent → Bool
  | McpEvent.connect _ _ => true
  | McpEvent.disconnect _ => false

/-- Whether a registry entry advertises `tool_name`
(`any(tool["name"] == tool_name for tool in tools)`, app-openia.py
line 187). -/
def ownsTool (entry : String × List Tool) (tool_name : String) : Bool :=
  entry.2.any (fun tool => tool.name == tool_name)

/-- `find_mcp_for_tool` (app-openia.py lines 183-189): iterate the
`mcp_tools` dict in insertion order and return the first connection name
advertising the tool; raise `ValueError` when none does. -/
def find_mcp_for_tool (mcp_tools : Registry) (tool_name : String) :
    Except PyErr String :=
  match mcp_tools.find? (fun entry => ownsTool entry tool_name) with
  | some entry => Except.ok entry.1
  | none =>
      Except.error (PyErr.valueError
        ("Tool " ++ tool_name ++ " not found in any MCP connection."))

/-- `call_tool` (app-openia.py lines 166-180) applied to the request's
`name` and `input` (lines 170-171).  `find_mcp_for_tool` may raise; then
`mcp_session, _ = cl.context.session.mcp_sessions.get(mcp_name)`: if the
key is absent, `.get` returns `None` and the tuple unpack raises
`TypeError`; if the stored session is `None` the `else` branch raises
`ValueError`; otherwise the backend session is called. -/
def call_tool (mcp_tools : Registry) (mcp_sessions : SessionTable)
    (tool_name : String) (tool_input : PyVal) : Except PyErr PyVal :=
  match find_mcp_for_tool mcp_tools tool_name with
  | Except.error e => Except.error e
  | Except.ok mcp_name =>
      match dictGet mcp_sessions mcp_name with
      | none =>
          Except.error (PyErr.typeError
            "cannot unpack non-iterable NoneType object")
      | some (none, _) =>
          Except.error (PyErr.valueError
            ("Aucune session MCP trouvee pour outil " ++ tool_name))
      | some (some mcp_session, _) => mcp_session.call_tool tool_name tool_input

/-- An OpenAI chat tool call as returned in `choice.message.tool_calls`
(app-openia.py line 159); its fields are never read by live code. -/
structure ChatToolCall where
  id : String
  fname : String
  arguments : String
deriving DecidableEq

/-- The outcome of one call to the external completion endpoint, per the
interface the adapter assumes of it: either a final text
(`choice.message.content`) or tool calls (`choice.message.tool_calls`,
when `response.has_tool_calls()` holds). -/
inductive ModelResponse where
  | finalText (s : String)
  | toolCalls (tcs : List ChatToolCall)
deriving DecidableEq

/-- The value `call_model_with_tools` returns to its caller
(app-openia.py lines 155-163): the content string of the first choice, or
the raw `tool_calls` list.  The first is a Python `str`, the second a
Python `list`. -/
inductive GatewayReturn where
  | content (s : String)
  | calls (tcs : List ChatToolCall)
deriving DecidableEq

/-- `call_model_with_tools` (app-openia.py lines 138-163): flattens the
registry into the tool list sent with the request, then returns either the
`tool_calls` list or the content string depending on
`response.has_tool_calls()`.  The model's answer itself is an input (the
external endpoint chooses it). -/
def call_model_with_tools (mcp_tools : Registry) (messages : List Msg)
    (resp : ModelResponse) : GatewayReturn :=
  let _all_tools := mcp_tools.flatMap (fun entry => entry.2)
  match resp with
  | ModelResponse.finalText s => GatewayReturn.content s
  | ModelResponse.toolCalls tcs => GatewayReturn.calls tcs

/-- `all_tools` as built in `call_model_with_tools` (app-openia.py line
140): `[tool for connection_tools in mcp_tools.values() for tool in
connection_tools]`. -/
def all_tools (mcp_tools : Registry) : List Tool :=
  mcp_tools.flatMap (fun connection_tools => connection_tools.2)

/-- Attribute access on the value returned by `call_model_with_tools`, for
the attributes `on_message` reads from it (`stop_reason` at line 36 and
`content` at lines 37 and 41): a Python `str` carries neither attribute
and a Python `list` carries neither attribute, so the lookup raises
`AttributeError`. -/
def gatewayGetattr : GatewayReturn → String → Except PyErr PyVal
  | GatewayReturn.content _, attr => Except.error (PyErr.attributeError attr)
  | GatewayReturn.calls _, attr => Except.error (PyErr.attributeError attr)

/-- The guard of the while loop (app-openia.py line 36):
`response.stop_reason == "tool_use"`.  Evaluating it first performs the
attribute access, which may raise. -/
def loopGuard (response : GatewayReturn) : Except PyErr Bool :=
  match gatewayGetattr response "stop_reason" with
  | Except.error e => Except.error e
  | Except.ok v => Except.ok (v == PyVal.pstr "tool_use")

/-- The body of the while loop (app-openia.py lines 37-52) as written,
applied to the block list the body assumes `response.content` to be:
`next(block for block in response.content if block.type == "tool_use")`
picks the first `tool_use` block (raising `StopIteration` when there is
none), `call_tool` is awaited with no exception handler (its errors
propagate), and `messages` is rebuilt as exactly the assistant message and
one tool-result message correlated with that block's id. -/
def loopBody (mcp_tools : Registry) (mcp_sessions : SessionTable)
    (content : List Block) : Except PyErr (List Msg) :=
  match content.find? (fun block => block.type == "tool_use") with
  | none => Except.error PyErr.stopIteration
  | some tool_use =>
      match call_tool mcp_tools mcp_sessions tool_use.name tool_use.input with
      | Except.error e => Except.error e
      | Except.ok tool_result =>
          Except.ok
            [Msg.assistant content,
             Msg.toolResultUser tool_use.id (pyStr tool_result)]

/-- The system prompt seeded into the transcript (app-openia.py line 30). -/
def systemPrompt : String :=
  "You are a helpful assistant to help me manage upsun projects. use the tools to help you. convert json content on enumeration value"

/-- The transcript built at the start of `on_message` (app-openia.py
lines 29-32): the system instruction followed by the triggering user
message. -/
def initialMessages (userContent : String) : List Msg :=
  [Msg.system systemPrompt, Msg.user userContent]

/-- Fuel bound for unfolding the while loop; the loop never consumes any
of it because its guard raises on entry (see `loopGuard`). -/
def loopFuel : Nat := 8

/-- The while loop of `on_message` (app-openia.py lines 36-55) over the
values `call_model_with_tools` actually returns.  The guard evaluates
`response.stop_reason`; were it ever to succeed and hold, the body would
next read `response.content` (line 37) — whose effects on the transcript
are modelled by `loopBody` — and then re-enter with the next model
response.  `invoked` accumulates the ids of tool calls performed so far.
Fuel exhaustion is a modelling artifact and is unreachable: the guard
raises on every entry. -/
def on_message_loop (oracle : Nat → ModelResponse) (mcp_tools : Registry)
    (mcp_sessions : SessionTable) :
    Nat → Nat → GatewayReturn → List String → Except PyErr (List String)
  | 0, _, _, invoked => Except.ok invoked
  | fuel + 1, turn, response, invoked =>
      match loopGuard response with
      | Except.error e => Except.error e
      | Except.ok false => Except.ok invoked
      | Except.ok true =>
          match gatewayGetattr response "content" with
          | Except.error e => Except.error e
          | Except.ok _ =>
              on_message_loop oracle mcp_tools mcp_sessions fuel (turn + 1)
                (call_model_with_tools mcp_tools [] (oracle turn)) invoked

deriving instance DecidableEq for Except

/-- The observable result of one `on_message` run: the texts sent to the
UI, the ids of the tool calls invoked, and whether the handler returned
normally or an exception escaped it. -/
structure RunResult where
  uiSent : List String
  toolInvocations : List String
  outcome : Except PyErr Unit
deriving DecidableEq

/-- `on_message` (app-openia.py lines 25-82): seed the transcript, call
the gateway once, then run the while loop.  The live code after the loop
is entirely commented out, so nothing is ever sent to the UI; an exception
escaping the loop escapes the handler. -/
def on_message (oracle : Nat → ModelResponse) (mcp_tools : Registry)
    (mcp_sessions : SessionTable) (userContent : String) : RunResult :=
  let messages := initialMessages userContent
  let response := call_model_with_tools mcp_tools messages (oracle 0)
  match on_message_loop oracle mcp_tools mcp_sessions loopFuel 1 response [] with
  | Except.error e =>
      { uiSent := [], toolInvocations := [], outcome := Except.error e }
  | Except.ok invoked =>
      { uiSent := [], toolInvocations := invoked, outcome := Except.ok () }

end AppOpenia

namespace App

/-- The `message` object of an OpenAI chat choice, as read by app.py
(line 35): only `content` is used. -/
structure ChatMsg where
  content : String
deriving DecidableEq

/-- One element of `response.choices`. -/
structure Choice where
  message : ChatMsg
deriving DecidableEq

/-- An OpenAI chat completion response, as read by app.py: only
`choices` is used. -/
structure Completion where
  choices : List Choice
deriving DecidableEq

/-- The system prompt of app.py (line 25). -/
def appSystemPrompt : String :=
  "You are a helpful assistant to help me manage upsun projects."

/-- `on_message` (app.py lines 20-35): one completion over the seeded
transcript, then `cl.Message(content=response.choices[0].message.content).send()`.
The returned list is the sequence of texts sent to the UI; `choices[0]` on
an empty list raises `IndexError`. -/
def on_message (complete : List Msg → Completion) (userContent : String) :
    Except PyErr (List String) :=
  let response := complete [Msg.system appSystemPrompt, Msg.user userContent]
  match response.choices with
  | [] => Except.error (PyErr.indexError "list index out of range")
  | choice :: _ => Except.ok [choice.message.content]

end App

/-!
Spec-side definitions used to state refinement claims, and concrete
fixtures used by witnesses and counterexamples.
-/

/-- Spec-side characterization of owner lookup: `FirstOwner mcp_tools
tool_name c` holds exactly when `c` is the name of the first connection,
in registration order, whose descriptor list contains `tool_name`. -/
inductive FirstOwner : AppOpenia.Registry → String → String → Prop where
  | head {entry : String × List Tool} {rest : AppOpenia.Registry} {tool_name : String}
      (howns : AppOpenia.ownsTool entry tool_name = true) :
      FirstOwner (entry :: rest) tool_name entry.1
  | tail {entry : String × List Tool} {rest : AppOpenia.Registry} {tool_name c : String}
      (howns : AppOpenia.ownsTool entry tool_name = false)
      (hrest : FirstOwner rest tool_name c) :
      FirstOwner (entry :: rest) tool_name c

/-- Spec-side description of flattening: the concatenation, in
connection-registration order then descriptor order, of all descriptors
across all connections. -/
def flattenSpec : AppOpenia.Registry → List Tool
  | [] => []
  | entry :: rest => entry.2 ++ flattenSpec rest

/-- Number of tool-result messages in a transcript fragment. -/
def countToolResults (ms : List Msg) : Nat :=
  (ms.filter (fun m => match m with
    | Msg.toolResultUser _ _ => true
    | _ => false)).length

/-- Fixture: a tool descriptor for the `list_projects` tool. -/
def listProjectsTool : Tool :=
  { name := "list_projects", description := "List all projects",
    input_schema := "object" }

/-- Fixture: a backend session answering every call with the payload
string "ok". -/
def okSession : AppOpenia.McpSession :=
  { call_tool := fun _ _ => Except.ok (PyVal.pstr "ok") }

/-- Fixture: a registry with one connection `upsun` owning
`list_projects`. -/
def demoRegistry : AppOpenia.Registry := [("upsun", [listProjectsTool])]

/-- Fixture: a session table holding a live session for `upsun`. -/
def demoSessions : AppOpenia.SessionTable := [("upsun", (some okSession, ()))]

/-- Fixture: a model oracle that requests a tool call on every turn. -/
def alwaysToolCalls : Nat → AppOpenia.ModelResponse := fun _ =>
  AppOpenia.ModelResponse.toolCalls
    [{ id := "call-1", fname := "list_projects", arguments := "" }]

namespace AppOpenia

/-- Helper: the loop guard raises `AttributeError` on every entry, because
neither shape of `GatewayReturn` carries a `stop_reason` attribute, so one
unfolding of the while loop already yields the fault. -/
theorem on_message_loop_fault (oracle : Nat → ModelResponse)
    (mcp_tools : Registry) (mcp_sessions : SessionTable) (fuel turn : Nat)
    (response : GatewayReturn) (invoked : List String) :
    on_message_loop oracle mcp_tools mcp_sessions (fuel + 1) turn response invoked
      = Except.error (PyErr.attributeError "stop_reason") := by
  cases response <;> rfl

/-- Helper: every `on_message` run sends nothing to the UI, invokes no
tool, and ends with the `AttributeError` raised by the loop guard. -/
theorem on_message_run (oracle : Nat → ModelResponse) (mcp_tools : Registry)
    (mcp_sessions : SessionTable) (userContent : String) :
    on_message oracle mcp_tools mcp_sessions userContent
      = { uiSent := [], toolInvocations := [],
          outcome := Except.error (PyErr.attributeError "stop_reason") } := by
  have hfuel : loopFuel = 7 + 1 := rfl
  unfold on_message
  rw [hfuel]
  simp only [on_message_loop_fault]

end AppOpenia

/-- C9: confirmed — for every registry state and tool name,
`find_mcp_for_tool` returns the first connection, in registration order,
whose descriptor list contains the name (so a name present in exactly one
connection resolves to it and a name present in two connections resolves
to the first-registered one), and it fails — with the `ValueError` that
models `ToolNotFound` — exactly when no connection owns the name. -/
theorem c9_find_owner_first_match (mcp_tools : AppOpenia.Registry)
    (tool_name : String) :
    (∀ c, AppOpenia.find_mcp_for_tool mcp_tools tool_name = Except.ok c ↔
        FirstOwner mcp_tools tool_name c)
  ∧ (AppOpenia.find_mcp_for_tool mcp_tools tool_name
        = Except.error (PyErr.valueError
            ("Tool " ++ tool_name ++ " not found in any MCP connection."))
      ↔ ∀ entry ∈ mcp_tools, AppOpenia.ownsTool entry tool_name = false) := by
  induction mcp_tools with
  | nil =>
      refine ⟨fun c => ⟨fun h => ?_, fun h => ?_⟩, ?_⟩
      · exact absurd h (by simp [AppOpenia.find_mcp_for_tool])
      · cases h
      · simp [AppOpenia.find_mcp_for_tool]
  | cons entry rest ih =>
      rcases ih with ⟨ihok, iherr⟩
      by_cases howns : AppOpenia.ownsTool entry tool_name = true
      · have hfind : AppOpenia.find_mcp_for_tool (entry :: rest) tool_name
            = Except.ok entry.1 := by
          simp only [AppOpenia.find_mcp_for_tool, List.find?, howns]
        refine ⟨fun c => ⟨fun h => ?_, fun h => ?_⟩, ?_⟩
        · rw [hfind] at h
          injection h with h
          subst h
          exact FirstOwner.head howns
        · cases h with
          | head _ => rw [hfind]
          | tail hfalse _ => rw [howns] at hfalse; cases hfalse
        · rw [hfind]
          constructor
          · intro h; exact absurd h (by simp)
          · intro h
            exact absurd (h entry (List.mem_cons_self _ _)) (by simp [howns])
      · have howns' : AppOpenia.ownsTool entry tool_name = false :=
          Bool.eq_false_iff.mpr howns
        have hfind : AppOpenia.find_mcp_for_tool (entry :: rest) tool_name
            = AppOpenia.find_mcp_for_tool rest tool_name := by
          simp only [AppOpenia.find_mcp_for_tool, List.find?, howns']
        refine ⟨fun c => ⟨fun h => ?_, fun h => ?_⟩, ?_⟩
        · rw [hfind] at h
          exact FirstOwner.tail howns' ((ihok c).mp h)
        · cases h with
          | head h1 => rw [h1] at howns'; cases howns'
          | tail _ h2 => rw [hfind]; exact (ihok c).mpr h2
        · rw [hfind]
          constructor
          · intro h e he
            rcases List.mem_cons.mp he with rfl | he2
            · exact howns'
            · exact (iherr.mp h) e he2
          · intro h
            exact iherr.mpr (fun e he => h e (List.mem_cons_of_mem _ he))

/-- C10: confirmed — for every registry state, the `all_tools` list built
for the model in `call_model_with_tools` equals the concatenation of each
registered connection's descriptor list, ordered by connection
registration order and, within a connection, by its descriptor order; in
particular flattening is a homomorphism for registry concatenation. -/
theorem c10_flatten_concat (mcp_tools : AppOpenia.Registry) :
    AppOpenia.all_tools mcp_tools = flattenSpec mcp_tools
  ∧ ∀ reg2 : AppOpenia.Registry,
      AppOpenia.all_tools (mcp_tools ++ reg2)
        = AppOpenia.all_tools mcp_tools ++ AppOpenia.all_tools reg2 := by
  constructor
  · induction mcp_tools with
    | nil => rfl
    | cons entry rest ih =>
        simp only [AppOpenia.all_tools, List.flatMap_cons, flattenSpec]
        rw [← ih]
        rfl
  · intro reg2
    simp only [AppOpenia.all_tools, List.flatMap_append]

/-- C1 counterexample: a model turn requesting the unregistered tool
`deploy` makes the tool round-trip (loop body, app-openia.py lines 37-52)
raise the `ValueError` from `find_mcp_for_tool` — there is no exception
handler anywhere in `on_message` — so no tool-result message describing
the failure is produced and the loop does not continue, contrary to the
claim. -/
theorem c1_counterexample :
    AppOpenia.loopBody demoRegistry demoSessions
        [{ type := "tool_use", id := "req-1", name := "deploy",
           input := PyVal.pnone }]
      = Except.error (PyErr.valueError
          "Tool deploy not found in any MCP connection.") := by decide

/-- C1 (amended): a failed tool invocation is not recovered: whenever
`call_tool` reports an error (unknown tool, absent session, or a backend
error) for the `tool_use` block selected from a model turn, the loop body
of `on_message` propagates that exception unchanged — no tool-result
message is appended and the model/tool loop does not continue. -/
theorem c1_tool_failure_raises (mcp_tools : AppOpenia.Registry)
    (mcp_sessions : AppOpenia.SessionTable) (content : List Block)
    (tool_use : Block) (e : PyErr)
    (hfind : content.find? (fun block => block.type == "tool_use")
              = some tool_use)
    (hfail : AppOpenia.call_tool mcp_tools mcp_sessions tool_use.name
              tool_use.input = Except.error e) :
    AppOpenia.loopBody mcp_tools mcp_sessions content = Except.error e := by
  simp only [AppOpenia.loopBody, hfind, hfail]

/-- Witness for C1 (amended): with the `upsun` connection registered but
no live session for it, the round-trip on a `list_projects` request
propagates the `TypeError` raised inside `call_tool`. -/
theorem c1_tool_failure_raises_witness :
    AppOpenia.loopBody demoRegistry []
        [{ type := "tool_use", id := "req-2", name := "list_projects",
           input := PyVal.pnone }]
      = Except.error (PyErr.typeError
          "cannot unpack non-iterable NoneType object") :=
  c1_tool_failure_raises demoRegistry []
    [{ type := "tool_use", id := "req-2", name := "list_projects",
       input := PyVal.pnone }]
    { type := "tool_use", id := "req-2", name := "list_projects",
      input := PyVal.pnone }
    (PyErr.typeError "cannot unpack non-iterable NoneType object")
    (by decide) (by decide)

/-- C2 counterexample: with a model that returns tool calls on every turn,
the driver does not stop after a budget of round-trips with a
`LoopBudgetExceeded` failure outcome — no such outcome exists in the code.
The run dies at the very first evaluation of the loop guard with an
`AttributeError` (the returned tool-call list has no `stop_reason`
attribute), having invoked zero tools and sent nothing to the UI. -/
theorem c2_counterexample :
    AppOpenia.on_message alwaysToolCalls demoRegistry demoSessions
        "List all upsun project."
      = { uiSent := [], toolInvocations := [],
          outcome := Except.error (PyErr.attributeError "stop_reason") } := by
  decide

/-- C2 (amended): the loop in `on_message` imposes no round-trip budget
and has no `LoopBudgetExceeded` outcome; whenever the model returns tool
calls on every turn, the run ends at the first loop-guard evaluation with
an unhandled `AttributeError`, having performed zero tool invocations. -/
theorem c2_no_loop_budget (oracle : Nat → AppOpenia.ModelResponse)
    (tcs : Nat → List AppOpenia.ChatToolCall)
    (mcp_tools : AppOpenia.Registry) (mcp_sessions : AppOpenia.SessionTable)
    (userContent : String)
    (h : ∀ n, oracle n = AppOpenia.ModelResponse.toolCalls (tcs n)) :
    (AppOpenia.on_message oracle mcp_tools mcp_sessions userContent).outcome
        = Except.error (PyErr.attributeError "stop_reason")
  ∧ (AppOpenia.on_message oracle mcp_tools mcp_sessions
        userContent).toolInvocations = [] := by
  rw [AppOpenia.on_message_run]
  exact ⟨rfl, rfl⟩

/-- Witness for C2 (amended): the always-tool-calls oracle at a concrete
registry and user message. -/
theorem c2_no_loop_budget_witness :
    (AppOpenia.on_message alwaysToolCalls demoRegistry demoSessions
        "hi").outcome = Except.error (PyErr.attributeError "stop_reason")
  ∧ (AppOpenia.on_message alwaysToolCalls demoRegistry demoSessions
        "hi").toolInvocations = [] :=
  c2_no_loop_budget alwaysToolCalls
    (fun _ => [{ id := "call-1", fname := "list_projects", arguments := "" }])
    demoRegistry demoSessions "hi" (fun _ => rfl)

/-- C3 counterexample: a model turn carrying two tool-use requests
(`req-a` then `req-b`) is answered by the loop body with exactly one
tool-result message, correlated with `req-a` only — `req-b` is neither
invoked nor answered — contrary to the claim that exactly one tool-result
is appended per request. -/
theorem c3_counterexample :
    AppOpenia.loopBody demoRegistry demoSessions
        [{ type := "tool_use", id := "req-a", name := "list_projects",
           input := PyVal.pnone },
         { type := "tool_use", id := "req-b", name := "list_projects",
           input := PyVal.pnone }]
      = Except.ok
          [Msg.assistant
             [{ type := "tool_use", id := "req-a", name := "list_projects",
                input := PyVal.pnone },
              { type := "tool_use", id := "req-b", name := "list_projects",
                input := PyVal.pnone }],
           Msg.toolResultUser "req-a" "ok"]
  ∧ countToolResults
        [Msg.assistant
           [{ type := "tool_use", id := "req-a", name := "list_projects",
              input := PyVal.pnone },
            { type := "tool_use", id := "req-b", name := "list_projects",
              input := PyVal.pnone }],
         Msg.toolResultUser "req-a" "ok"] = 1 := by decide

/-- C3 (amended): when a model turn returns a sequence of tool-use
requests, the loop body invokes only the first `tool_use` block of the
sequence and appends exactly one tool-result message, correlated with that
first request's id; the remaining requests are dropped.  (In an actual
run even this never happens: the loop guard faults first, see C5.) -/
theorem c3_first_request_only (mcp_tools : AppOpenia.Registry)
    (mcp_sessions : AppOpenia.SessionTable) (content : List Block)
    (tool_use : Block) (v : PyVal)
    (hfind : content.find? (fun block => block.type == "tool_use")
              = some tool_use)
    (hok : AppOpenia.call_tool mcp_tools mcp_sessions tool_use.name
            tool_use.input = Except.ok v) :
    AppOpenia.loopBody mcp_tools mcp_sessions content
      = Except.ok
          [Msg.assistant content,
           Msg.toolResultUser tool_use.id (pyStr v)] := by
  simp only [AppOpenia.loopBody, hfind, hok]

/-- Witness for C3 (amended): a two-request turn at a concrete registry
and session table. -/
theorem c3_first_request_only_witness :
    AppOpenia.loopBody demoRegistry demoSessions
        [{ type := "tool_use", id := "req-c", name := "list_projects",
           input := PyVal.pnone },
         { type := "tool_use", id := "req-d", name := "list_projects",
           input := PyVal.pnone }]
      = Except.ok
          [Msg.assistant
             [{ type := "tool_use", id := "req-c", name := "list_projects",
                input := PyVal.pnone },
              { type := "tool_use", id := "req-d", name := "list_projects",
                input := PyVal.pnone }],
           Msg.toolResultUser "req-c" "ok"] :=
  c3_first_request_only demoRegistry demoSessions
    [{ type := "tool_use", id := "req-c", name := "list_projects",
       input := PyVal.pnone },
     { type := "tool_use", id := "req-d", name := "list_projects",
       input := PyVal.pnone }]
    { type := "tool_use", id := "req-c", name := "list_projects",
      input := PyVal.pnone }
    (PyVal.pstr "ok") (by decide) (by decide)

/-- C4 counterexample: the transcript is not append-only.  A run seeded
with the system instruction and the user message "hello" that performs one
tool round-trip rebuilds `messages` (app-openia.py lines 40-52, with the
`chat_messages.extend` of line 54 commented out) as exactly the latest
assistant message and its tool-result: the transcript handed to the next
model call (line 55) contains neither the seeding system instruction nor
the triggering user message. -/
theorem c4_counterexample :
    AppOpenia.initialMessages "hello"
        = [Msg.system AppOpenia.systemPrompt, Msg.user "hello"]
  ∧ AppOpenia.loopBody demoRegistry demoSessions
        [{ type := "tool_use", id := "req-e", name := "list_projects",
           input := PyVal.pnone }]
      = Except.ok
          [Msg.assistant
             [{ type := "tool_use", id := "req-e", name := "list_projects",
                input := PyVal.pnone }],
           Msg.toolResultUser "req-e" "ok"]
  ∧ Msg.system AppOpenia.systemPrompt
      ∉ [Msg.assistant
           [{ type := "tool_use", id := "req-e", name := "list_projects",
              input := PyVal.pnone }],
         Msg.toolResultUser "req-e" "ok"]
  ∧ Msg.user "hello"
      ∉ [Msg.assistant
           [{ type := "tool_use", id := "req-e", name := "list_projects",
              input := PyVal.pnone }],
         Msg.toolResultUser "req-e" "ok"] := by decide

/-- C4 (amended): the transcript is rebuilt, not extended: whenever the
loop body completes a round-trip, the message list it hands to the next
model call consists of exactly two messages — the latest assistant message
and its single tool-result — and contains no system message and no plain
user message; every earlier transcript entry is dropped. -/
theorem c4_transcript_reassigned (mcp_tools : AppOpenia.Registry)
    (mcp_sessions : AppOpenia.SessionTable) (content : List Block)
    (ms : List Msg)
    (h : AppOpenia.loopBody mcp_tools mcp_sessions content = Except.ok ms) :
    (∃ tool_use_id payload,
        ms = [Msg.assistant content, Msg.toolResultUser tool_use_id payload])
  ∧ (∀ s, Msg.system s ∉ ms) ∧ (∀ s, Msg.user s ∉ ms) := by
  unfold AppOpenia.loopBody at h
  split at h
  · simp at h
  · rename_i tool_use hfind
    split at h
    · simp at h
    · rename_i v hcall
      injection h with h
      subst h
      refine ⟨⟨tool_use.id, pyStr v, rfl⟩, fun s => ?_, fun s => ?_⟩ <;> simp

/-- Witness for C4 (amended): the single-round-trip run on a concrete
registry, session table and tool-use block. -/
theorem c4_transcript_reassigned_witness :
    (∃ tool_use_id payload,
        [Msg.assistant
           [{ type := "tool_use", id := "req-f", name := "list_projects",
              input := PyVal.pnone }],
         Msg.toolResultUser "req-f" "ok"]
          = [Msg.assistant
               [{ type := "tool_use", id := "req-f", name := "list_projects",
                  input := PyVal.pnone }],
             Msg.toolResultUser tool_use_id payload])
  ∧ (∀ s, Msg.system s
        ∉ [Msg.assistant
             [{ type := "tool_use", id := "req-f", name := "list_projects",
                input := PyVal.pnone }],
           Msg.toolResultUser "req-f" "ok"])
  ∧ (∀ s, Msg.user s
        ∉ [Msg.assistant
             [{ type := "tool_use", id := "req-f", name := "list_projects",
                input := PyVal.pnone }],
           Msg.toolResultUser "req-f" "ok"]) :=
  c4_transcript_reassigned demoRegistry demoSessions
    [{ type := "tool_use", id := "req-f", name := "list_projects",
       input := PyVal.pnone }]
    [Msg.assistant
       [{ type := "tool_use", id := "req-f", name := "list_projects",
          input := PyVal.pnone }],
     Msg.toolResultUser "req-f" "ok"]
    (by decide)

/-- C5: confirmed — `call_model_with_tools` returns either the assistant
content string or the `tool_calls` list; neither shape carries the
`stop_reason` attribute read by the loop guard (line 36) nor the `content`
attribute read by the loop body (lines 37 and 41).  Hence whenever the
first completion succeeds, evaluating the loop guard raises
`AttributeError`, every `on_message` run ends with that unhandled fault,
and the tool round-trip body never executes. -/
theorem c5_stop_reason_fault (mcp_tools : AppOpenia.Registry)
    (messages : List Msg) (resp : AppOpenia.ModelResponse) :
    AppOpenia.gatewayGetattr
        (AppOpenia.call_model_with_tools mcp_tools messages resp) "stop_reason"
      = Except.error (PyErr.attributeError "stop_reason")
  ∧ AppOpenia.gatewayGetattr
        (AppOpenia.call_model_with_tools mcp_tools messages resp) "content"
      = Except.error (PyErr.attributeError "content")
  ∧ AppOpenia.loopGuard
        (AppOpenia.call_model_with_tools mcp_tools messages resp)
      = Except.error (PyErr.attributeError "stop_reason")
  ∧ ∀ (oracle : Nat → AppOpenia.ModelResponse)
      (mcp_sessions : AppOpenia.SessionTable) (userContent : String),
      (AppOpenia.on_message oracle mcp_tools mcp_sessions userContent).outcome
        = Except.error (PyErr.attributeError "stop_reason") := by
  refine ⟨?_, ?_, ?_, fun oracle mcp_sessions userContent => ?_⟩
  · cases resp <;> rfl
  · cases resp <;> rfl
  · cases resp <;> rfl
  · rw [AppOpenia.on_message_run]

/-- C6 counterexample: the tool `list_projects` is owned by the registered
connection `upsun`, but the session table has no entry for `upsun` (the
connection disconnected after registration).  `call_tool` then faults with
the `TypeError` raised by unpacking the `None` that `.get` returned — it
does not return a `BackendUnavailable` error variant and the driver does
not feed an error tool-result back to the model. -/
theorem c6_counterexample :
    AppOpenia.call_tool demoRegistry [] "list_projects" PyVal.pnone
      = Except.error (PyErr.typeError
          "cannot unpack non-iterable NoneType object") := by decide

/-- C6 (amended): for every tool name whose owning connection is known
from the registry but whose live session entry is absent from the session
table, `call_tool` faults with a `TypeError` (unpacking the `None`
returned by `mcp_sessions.get`); the `else` branch that would raise a
descriptive `ValueError` is unreachable in this case, no
`BackendUnavailable` variant exists, and no recovery happens. -/
theorem c6_absent_session_faults (mcp_tools : AppOpenia.Registry)
    (mcp_sessions : AppOpenia.SessionTable) (tool_name : String)
    (tool_input : PyVal) (owner : String)
    (hown : AppOpenia.find_mcp_for_tool mcp_tools tool_name
              = Except.ok owner)
    (habsent : AppOpenia.dictGet mcp_sessions owner = none) :
    AppOpenia.call_tool mcp_tools mcp_sessions tool_name tool_input
      = Except.error (PyErr.typeError
          "cannot unpack non-iterable NoneType object") := by
  simp only [AppOpenia.call_tool, hown, habsent]

/-- Witness for C6 (amended): owner `upsun` is registered, the session
table holds a session only for a different connection. -/
theorem c6_absent_session_faults_witness :
    AppOpenia.call_tool demoRegistry [("other", (some okSession, ()))]
        "list_projects" PyVal.pnone
      = Except.error (PyErr.typeError
          "cannot unpack non-iterable NoneType object") :=
  c6_absent_session_faults demoRegistry [("other", (some okSession, ()))]
    "list_projects" PyVal.pnone "upsun" (by decide) rfl

/-- C7 counterexample: after registering connection `upsun` with
`list_projects` and then delivering a disconnect event for `upsun`, the
flattened tool list still contains `list_projects` — the claim requires it
to be empty, since every connection has been unregistered — because
`on_mcp_disconnect` performs no registry cleanup. -/
theorem c7_counterexample :
    AppOpenia.all_tools
        (AppOpenia.runEvents []
          [AppOpenia.McpEvent.connect "upsun" [listProjectsTool],
           AppOpenia.McpEvent.disconnect "upsun"])
      = [listProjectsTool]
  ∧ ([listProjectsTool] : List Tool) ≠ [] := by decide

/-- C7 (amended): a disconnect event removes nothing: `on_mcp_disconnect`
leaves the registry unchanged, so running any sequence of
connect/disconnect events is the same as running only its connect events —
the flattened tool list offered to the model afterwards contains the
descriptors of every connection ever connected (with its latest
registration), regardless of disconnects. -/
theorem c7_disconnect_is_noop (mcp_tools : AppOpenia.Registry)
    (events : List AppOpenia.McpEvent) :
    AppOpenia.runEvents mcp_tools events
      = AppOpenia.runEvents mcp_tools
          (events.filter AppOpenia.McpEvent.isConnect)
  ∧ ∀ (reg : AppOpenia.Registry) (name : String),
      AppOpenia.on_mcp_disconnect reg name = reg := by
  refine ⟨?_, fun reg name => rfl⟩
  induction events generalizing mcp_tools with
  | nil => rfl
  | cons e rest ih =>
      cases e with
      | connect n ts =>
          simpa [AppOpenia.runEvents, AppOpenia.McpEvent.isConnect,
                 AppOpenia.applyEvent, List.filter]
            using ih (AppOpenia.on_mcp_connect mcp_tools n ts)
      | disconnect n =>
          simpa [AppOpenia.runEvents, AppOpenia.McpEvent.isConnect,
                 AppOpenia.applyEvent, AppOpenia.on_mcp_disconnect,
                 List.filter]
            using ih mcp_tools

/-- C8 counterexample: in app-openia.py, a run whose model immediately
produces a final answer delivers nothing to the UI — `on_message` contains
no live send call (the sends of lines 65-67 are commented out) and the run
in fact ends in the loop-guard `AttributeError` — contrary to the claim
that the final answer text (or an error message) is delivered to the UI
collaborator. -/
theorem c8_counterexample :
    (AppOpenia.on_message
        (fun _ => AppOpenia.ModelResponse.finalText
          "You have 2 projects: proj-a, proj-b.")
        demoRegistry demoSessions "List all upsun project.").uiSent = []
  ∧ (AppOpenia.on_message
        (fun _ => AppOpenia.ModelResponse.finalText
          "You have 2 projects: proj-a, proj-b.")
        demoRegistry demoSessions "List all upsun project.").outcome
      = Except.error (PyErr.attributeError "stop_reason") := by decide

/-- C8 (amended): only app.py delivers the model's answer to the UI: its
`on_message` sends exactly the first choice's content, once per user
message; app-openia.py's `on_message` never sends anything to the UI — on
success or on failure — for any oracle, registry, session table and user
message. -/
theorem c8_only_plain_app_delivers (complete : List Msg → App.Completion)
    (userContent : String) (choice : App.Choice) (rest : List App.Choice)
    (h : (complete [Msg.system App.appSystemPrompt,
                    Msg.user userContent]).choices = choice :: rest) :
    App.on_message complete userContent = Except.ok [choice.message.content]
  ∧ ∀ (oracle : Nat → AppOpenia.ModelResponse)
      (mcp_tools : AppOpenia.Registry)
      (mcp_sessions : AppOpenia.SessionTable) (u : String),
      (AppOpenia.on_message oracle mcp_tools mcp_sessions u).uiSent = [] := by
  constructor
  · simp only [App.on_message, h]
  · intro oracle mcp_tools mcp_sessions u
    rw [AppOpenia.on_message_run]

/-- Witness for C8 (amended): a completion endpoint answering with one
choice carrying the text "answer". -/
theorem c8_only_plain_app_delivers_witness :
    App.on_message
        (fun _ => { choices := [{ message := { content := "answer" } }] })
        "hello"
      = Except.ok ["answer"]
  ∧ ∀ (oracle : Nat → AppOpenia.ModelResponse)
      (mcp_tools : AppOpenia.Registry)
      (mcp_sessions : AppOpenia.SessionTable) (u : String),
      (AppOpenia.on_message oracle mcp_tools mcp_sessions u).uiSent = [] :=
  c8_only_plain_app_delivers
    (fun _ => { choices := [{ message := { content := "answer" } }] })
    "hello" { message := { content := "answer" } } [] rfl
